import Mathlib

/-
Verification of the reL4-cli installer pipeline (src/install.rs, src/main.rs).

The program is a sequential orchestrator: it parses options, then shells out
to external tools (git, cargo, rustup, cmake, ninja) and touches the
filesystem (remove_dir_all, canonicalize, create_dir_all, copy).  We embed it
shallowly: every external interaction is an `Event` appended to a trace, and
the outcome of each interaction is supplied by an oracle `World`
(spawn exit statuses indexed by a running spawn counter, directory existence,
canonicalization results, copy/create results).  Fallible steps return
`Except Err`, mirroring the Rust `anyhow::Result` and `panic!`/`expect`
behaviour.  All definitions follow src/install.rs line by line.
-/

namespace ReL4Cli

/-- Outcome of spawning one external process: either the process could not be
started (the io error of `Command::status()`), or it ran and exited with the
given code (`success()` is code 0). -/
inductive SpawnResult where
  | spawnError
  | exited (code : Nat)
deriving DecidableEq, Repr

/-- One external command invocation: program name, ordered arguments, optional
working directory, removed environment variables, added environment
variables.  Mirrors the `std::process::Command` builders in install.rs. -/
structure Cmd where
  prog : String
  args : List String
  cwd : Option String := none
  envRemove : List String := []
  envSet : List (String × String) := []
deriving DecidableEq, Repr

/-- Observable effects of a run: process spawns (with their outcome) and
filesystem operations. -/
inductive Event where
  | spawn (c : Cmd) (r : SpawnResult)
  | removeDirAll (path : String)
  | canonicalizeCall (path : String)
  | createDirAll (path : String)
  | copyFile (src : String) (dst : String)
deriving DecidableEq, Repr

/-- Errors of the embedded program.  `spawnFailure` is a `Command::status()`
io error propagated with `?`; `panicked` is an `.expect(...)` panic;
`anyhowMsg` is an `anyhow::anyhow!(msg)` error; `ioError` is any other
io error propagated with `?` (canonicalize, create_dir_all, copy). -/
inductive Err where
  | spawnFailure (prog : String)
  | panicked (msg : String)
  | anyhowMsg (msg : String)
  | ioError (op : String) (path : String)
deriving DecidableEq, Repr

/-- Mutable run state: the number of spawns performed so far (used to index
the oracle) and the accumulated event trace. -/
structure St where
  count : Nat
  trace : List Event
deriving DecidableEq, Repr

/-- Environment oracle: decides the outcome of the n-th spawn, which paths
exist, how paths canonicalize, and whether create_dir_all/copy succeed. -/
structure World where
  spawnStatus : Nat → Cmd → SpawnResult
  pathExists : String → Bool
  canonicalize : String → Option String
  createDirOk : String → Bool
  copyOk : String → String → Bool

abbrev Res (α : Type) := Except Err α × St

/-- Append one event to the trace. -/
def recordEvent (st : St) (e : Event) : St :=
  { st with trace := st.trace ++ [e] }

/-- Model of `Command::status()`: spawn the process, record the attempt, propagate an
io error with `?`, otherwise return the exit code. -/
def spawnE (w : World) (c : Cmd) (st : St) : Res Nat :=
  let r := w.spawnStatus st.count c
  let st' : St := { count := st.count + 1, trace := st.trace ++ [Event.spawn c r] }
  match r with
  | SpawnResult.spawnError => (Except.error (Err.spawnFailure c.prog), st')
  | SpawnResult.exited n => (Except.ok n, st')

/-- Sequencing of fallible steps (the `?` operator). -/
def andThen (r : Res α) (f : α → St → Res β) : Res β :=
  match r with
  | (Except.error e, st) => (Except.error e, st)
  | (Except.ok a, st) => f a st

/-- The pattern `let status = Command::new(..).status()?;
if !status.success() { return Err(anyhow!(msg)); }`. -/
def runChecked (w : World) (c : Cmd) (msg : String) (st : St) : Res Unit :=
  andThen (spawnE w c st) fun n st =>
    if n = 0 then (Except.ok (), st) else (Except.error (Err.anyhowMsg msg), st)

/-- The pattern `cmd.status().expect(msg)`: a spawn io error panics with
`msg`; the exit status itself is dropped without being inspected. -/
def expectRun (w : World) (c : Cmd) (msg : String) (st : St) : Res Unit :=
  match spawnE w c st with
  | (Except.error _, st') => (Except.error (Err.panicked msg), st')
  | (Except.ok _, st') => (Except.ok (), st')

/-- Model of `std::fs::canonicalize(p)?`. -/
def canonicalizeE (w : World) (p : String) (st : St) : Res String :=
  let st' := recordEvent st (Event.canonicalizeCall p)
  match w.canonicalize p with
  | none => (Except.error (Err.ioError "canonicalize" p), st')
  | some q => (Except.ok q, st')

/-- Model of `if std::fs::remove_dir_all(p).is_err() \x7b \x7d`:
the result is swallowed, so only the event is recorded. -/
def removeDirAllE (st : St) (p : String) : St :=
  recordEvent st (Event.removeDirAll p)

/-- Model of `std::fs::create_dir_all(p)?`. -/
def createDirAllE (w : World) (p : String) (st : St) : Res Unit :=
  let st' := recordEvent st (Event.createDirAll p)
  if w.createDirOk p then (Except.ok (), st')
  else (Except.error (Err.ioError "create_dir_all" p), st')

/-- Model of `std::fs::copy(src, dst)?`. -/
def copyE (w : World) (src dst : String) (st : St) : Res Unit :=
  let st' := recordEvent st (Event.copyFile src dst)
  if w.copyOk src dst then (Except.ok (), st')
  else (Except.error (Err.ioError "copy" src), st')

/-- The retry loop around a clone command:
`let mut attempts = 0;
while !command.status()?.success() && attempts < 3 { attempts += 1; ... }`.
`remaining` is `3 - attempts`.  Note the loop's exact shape: the command is
re-invoked as part of evaluating the loop condition even when
`attempts = 3`, and when the condition finally fails the loop simply falls
through — no error is returned for an exhausted retry budget. -/
def cloneLoop (w : World) (c : Cmd) : Nat → St → Res Unit
  | remaining, st =>
    match spawnE w c st with
    | (Except.error e, st') => (Except.error e, st')
    | (Except.ok n, st') =>
      if n = 0 then (Except.ok (), st')
      else
        match remaining with
        | 0 => (Except.ok (), st')
        | r + 1 => cloneLoop w c r st'

/-- CLI options of the `install kernel` subcommand (struct KernelOptions).
Field `sel4Pfx` is the seL4 install root (`sel4_prefix` in the source,
default `/workspace/.seL4`); `localPath` is the optional local reL4 kernel
path (`local` in the source). -/
structure KernelOptions where
  platform : String := "qemu-arm-virt"
  mcs : Bool := false
  nofastpath : Bool := false
  bin : Bool := false
  sel4Pfx : String := "/workspace/.seL4"
  localPath : Option String := none
  branch : String := "master"
  force : Bool := false
  sel4Baseline : Option String := none
deriving DecidableEq, Repr

/-- Fixed staging path of the reL4 kernel sources. -/
def rel4KernelPath : String := "/tmp/rel4_kernel"

/-- Fixed staging path of the seL4 C sources (both the upstream baseline
clone and the seL4_c_impl clone use the same path). -/
def sel4KernelPath : String := "/tmp/seL4_kernel"

/-- The clone of the reL4 integral kernel (install_rel4_kernel):
shallow (`--depth 1`) and pinned to the requested branch. -/
def rel4CloneCmd (br : String) : Cmd :=
  { prog := "git",
    args := ["clone", "https://github.com/reL4team2/rel4-integral.git", rel4KernelPath,
             "--config", "advice.detachedHead=false", "--depth", "1", "--branch", br] }

/-- The post-clone dependency pin fixup (`cargo update home@0.5.11 --precise 0.5.5`). -/
def cargoUpdateCmd : Cmd :=
  { prog := "cargo",
    args := ["update", "home@0.5.11", "--precise", "0.5.5"],
    cwd := some rel4KernelPath }

/-- The clone of the upstream seL4 baseline (install_sel4_kernel). -/
def sel4CloneCmd : Cmd :=
  { prog := "git",
    args := ["clone", "https://github.com/seL4/seL4.git", sel4KernelPath] }

/-- `git checkout <commit>` in the baseline staging directory. -/
def checkoutCmd (commit : String) : Cmd :=
  { prog := "git", args := ["checkout", commit], cwd := some sel4KernelPath }

/-- The clone of the seL4_c_impl sources (install_rel4_kernel, C build part). -/
def cImplCloneCmd : Cmd :=
  { prog := "git",
    args := ["clone", "https://github.com/reL4team2/seL4_c_impl.git", sel4KernelPath,
             "--config", "advice.detachedHead=false"] }

/-- CMake argument list of the upstream seL4 baseline build, by platform
(install_sel4_kernel).  `none` encodes the `Unsupported platform` arm. -/
def sel4CmakeArgs (platform pfx buildPath : String) : Option (List String) :=
  if platform = "spike" then
    some ["-DCROSS_COMPILER_PREFIX=riscv64-unknown-linux-gnu-",
          "-DCMAKE_INSTALL_PREFIX=" ++ pfx,
          "-DKernelArch=riscv", "-DKernelPlatform=spike", "-DKernelSel4Arch=riscv64",
          "-DKernelVerificationBuild=OFF",
          "-G", "Ninja", "-S", ".", "-B", buildPath]
  else if platform = "qemu-arm-virt" then
    some ["-DCROSS_COMPILER_PREFIX=aarch64-linux-gnu-",
          "-DKernelAllowSMCCalls=ON",
          "-DCMAKE_INSTALL_PREFIX=" ++ pfx,
          "-DKernelArmExportPCNTUser=ON", "-DKernelArmExportPTMRUser=ON",
          "-DARM_CPU=cortex-a57", "-DKernelArch=arm", "-DKernelArmHypervisorSupport=OFF",
          "-DKernelPlatform=qemu-arm-virt", "-DKernelSel4Arch=aarch64",
          "-DKernelVerificationBuild=OFF",
          "-G", "Ninja", "-S", ".", "-B", buildPath]
  else none

/-- CMake argument list of the seL4_c_impl build, by platform
(install_rel4_kernel).  These are the project-specific argument lists that
load a kernel-settings file with `-C`. -/
def rel4CmakeArgs (platform pfx : String) (bin : Bool) (buildPath : String) :
    Option (List String) :=
  let rel4KernelFlag := "-DREL4_KERNEL=" ++ (if bin then "TRUE" else "FALSE")
  if platform = "spike" then
    some ["-DCROSS_COMPILER_PREFIX=riscv64-unknown-linux-gnu-",
          "-DCMAKE_INSTALL_PREFIX=" ++ pfx, rel4KernelFlag,
          "-C", "./kernel-settings-riscv64.cmake",
          "-G", "Ninja", "-S", ".", "-B", buildPath]
  else if platform = "qemu-arm-virt" then
    some ["-DCROSS_COMPILER_PREFIX=aarch64-linux-gnu-",
          "-DKernelAllowSMCCalls=ON",
          "-DCMAKE_INSTALL_PREFIX=" ++ pfx, rel4KernelFlag,
          "-DKernelArmExportPCNTUser=ON", "-DKernelArmExportPTMRUser=ON",
          "-C", "./kernel-settings-aarch64.cmake",
          "-G", "Ninja", "-S", ".", "-B", buildPath]
  else none

/-- Platform-dependent arguments of the `cargo xtask build` invocation
(install_rel4_kernel, the `match opts.platform` at the build step). -/
def rel4PlatformArgs (platform : String) : Option (List String) :=
  if platform = "spike" then some ["--platform", "spike"]
  else if platform = "qemu-arm-virt" then
    some ["--platform", "qemu-arm-virt", "-s", "on", "--arm-pcnt", "--arm-ptmr"]
  else none

/-- Full argument list of the reL4 kernel build command
(`rustup run nightly-2024-02-01 cargo xtask build --rust-only ...`). -/
def rel4BuildArgs (opts : KernelOptions) (platArgs : List String) : List String :=
  ["run", "nightly-2024-02-01", "cargo", "xtask", "build", "--rust-only"] ++ platArgs
    ++ (if opts.mcs then ["--mcs", "on"] else [])
    ++ (if opts.nofastpath then ["--nofastpath"] else [])
    ++ (if opts.bin then ["--bin"] else [])

/-- Target triple of the binary-mode kernel artifact, by platform. -/
def rel4BinTarget (platform : String) : Option String :=
  if platform = "spike" then some "riscv64imac-unknown-none-elf"
  else if platform = "qemu-arm-virt" then some "aarch64-unknown-none-softfloat"
  else none

/-- Path of the binary-mode kernel artifact inside the source tree:
`<dir>/target/<triple>/release/rel4_kernel`. -/
def rel4KernelArtifact (dir target : String) : String :=
  dir ++ "/" ++ ("target/" ++ target ++ "/release/rel4_kernel")

/-- Characters strictly before the last `/` of the list, or `none` when the
list has no `/`. -/
def parentChars : List Char → Option (List Char)
  | [] => none
  | c :: cs =>
    match parentChars cs with
    | some rest => some (c :: rest)
    | none => if c = '/' then some [] else none

/-- Rust `Path::parent()`, modelled on `/`-separated path strings: everything
before the last separator. -/
def parentPath (p : String) : Option String :=
  (parentChars p.data).map fun cs => String.mk cs

/-- install_sel4_kernel (install.rs lines 74-168): unconditionally remove the
staging directory, clone upstream seL4 with the retry loop, check out the
pinned commit, canonicalize the staging directory, then configure and build
with the upstream CMake flags. -/
def install_sel4_kernel (w : World) (opts : KernelOptions) (pfx commit : String)
    (st : St) : Res Unit :=
  let st := removeDirAllE st sel4KernelPath
  andThen (cloneLoop w sel4CloneCmd 3 st) fun _ st =>
  andThen (runChecked w (checkoutCmd commit) "Failed to checkout specific commit" st) fun _ st =>
  andThen (canonicalizeE w sel4KernelPath st) fun dir st =>
  match sel4CmakeArgs opts.platform pfx (dir ++ "/build") with
  | none => (Except.error (Err.anyhowMsg "Unsupported platform"), st)
  | some args =>
    andThen (runChecked w { prog := "cmake", args := args, cwd := some dir }
        "Failed to configure project with CMake" st) fun _ st =>
    andThen (runChecked w { prog := "ninja", args := ["-C", "build", "all"], cwd := some dir }
        "Failed to build project with Ninja" st) fun _ st =>
    runChecked w { prog := "ninja", args := ["-C", "build", "install"], cwd := some dir }
      "Failed to install project with Ninja" st

/-- Resolution of `rel4_kernel_dir` (install.rs lines 174-202): a local path
is returned unchanged with no effects; otherwise, when `force` is set or the
staging path does not exist, remove the staging directory, clone with the
retry loop and run the dependency-pin fixup; otherwise reuse the staging
path untouched. -/
def acquireRel4Source (w : World) (opts : KernelOptions) (st : St) : Res String :=
  match opts.localPath with
  | some p => (Except.ok p, st)
  | none =>
    if opts.force || !(w.pathExists rel4KernelPath) then
      let st := removeDirAllE st rel4KernelPath
      andThen (cloneLoop w (rel4CloneCmd opts.branch) 3 st) fun _ st =>
      andThen (runChecked w cargoUpdateCmd "Failed to update home version" st) fun _ st =>
      (Except.ok rel4KernelPath, st)
    else (Except.ok rel4KernelPath, st)

/-- Resolution of `build_sel4_dir` (install.rs lines 261-280): with a local
path the sibling directory `<local>/../kernel` is used with no effects;
otherwise the seL4_c_impl staging directory is reused, or removed and
re-cloned when `force` is set or it does not exist. -/
def acquireSel4CImpl (w : World) (opts : KernelOptions) (st : St) : Res String :=
  match opts.localPath with
  | some p => (Except.ok (p ++ "/../kernel"), st)
  | none =>
    if opts.force || !(w.pathExists sel4KernelPath) then
      let st := removeDirAllE st sel4KernelPath
      andThen (cloneLoop w cImplCloneCmd 3 st) fun _ st =>
      (Except.ok sel4KernelPath, st)
    else (Except.ok sel4KernelPath, st)

/-- The `if opts.bin { ... }` block (install.rs lines 249-259): derive the
target triple, create `<pfx>/bin` and copy the built kernel ELF to
`<pfx>/bin/kernel.elf`. -/
def installBinArtifact (w : World) (opts : KernelOptions) (pfx rel4Dir : String)
    (st : St) : Res Unit :=
  if opts.bin then
    match rel4BinTarget opts.platform with
    | none => (Except.error (Err.anyhowMsg "Unsupported platform"), st)
    | some target =>
      let kernelPath := rel4KernelArtifact rel4Dir target
      let installPath := pfx ++ "/" ++ "bin/kernel.elf"
      match parentPath installPath with
      | none => (Except.error (Err.anyhowMsg "Invalid install path"), st)
      | some parentDir =>
        andThen (createDirAllE w parentDir st) fun _ st =>
        copyE w kernelPath installPath st
  else (Except.ok (), st)

/-- install_rel4_kernel (install.rs lines 173-340): acquire the reL4 sources,
compose and run the `cargo xtask build` command (rejecting unsupported
platforms only at this composition point), optionally install the
binary-mode artifact, then acquire the seL4_c_impl sources, canonicalize,
and configure and build them with the project CMake flags. -/
def install_rel4_kernel (w : World) (opts : KernelOptions) (pfx : String)
    (st : St) : Res Unit :=
  andThen (acquireRel4Source w opts st) fun rel4Dir st =>
  match rel4PlatformArgs opts.platform with
  | none => (Except.error (Err.anyhowMsg ("Unsupported platform: " ++ opts.platform)), st)
  | some platArgs =>
    andThen (runChecked w
        { prog := "rustup", args := rel4BuildArgs opts platArgs, cwd := some rel4Dir }
        "Failed to build reL4 kernel" st) fun _ st =>
    andThen (installBinArtifact w opts pfx rel4Dir st) fun _ st =>
    andThen (acquireSel4CImpl w opts st) fun cDir st =>
    andThen (canonicalizeE w cDir st) fun dir st =>
    match rel4CmakeArgs opts.platform pfx opts.bin (dir ++ "/build") with
    | none => (Except.error (Err.anyhowMsg "Unsupported platform"), st)
    | some args =>
      andThen (runChecked w { prog := "cmake", args := args, cwd := some dir }
          "Failed to configure project with CMake" st) fun _ st =>
      andThen (runChecked w { prog := "ninja", args := ["-C", "build", "all"], cwd := some dir }
          "Failed to build project with Ninja" st) fun _ st =>
      runChecked w { prog := "ninja", args := ["-C", "build", "install"], cwd := some dir }
        "Failed to install project with Ninja" st

/-- install_kernel (install.rs lines 65-71): a supplied baseline commit
routes the build to the upstream seL4 path, otherwise to the reL4 path. -/
def install_kernel (w : World) (opts : KernelOptions) (pfx : String) (st : St) : Res Unit :=
  match opts.sel4Baseline with
  | some commit => install_sel4_kernel w opts pfx commit st
  | none => install_rel4_kernel w opts pfx st

/-- Git url of the rust-sel4 loader sources. -/
def loaderGitUrl : String := "https://github.com/reL4team2/rust-sel4.git"

/-- Pinned revision of the rust-sel4 loader sources. -/
def loaderGitRev : String := "642b58d807c5e5fc22f0c15d1467d6bec328faa9"

/-- First loader command: `rustup run nightly-2024-08-01 cargo install ...
sel4-kernel-loader-add-payload`, with the toolchain-selection variables
removed from the environment. -/
def addPayloadCmd (opts : KernelOptions) (pfx : String) : Cmd :=
  { prog := "rustup",
    args := ["run", "nightly-2024-08-01", "cargo", "install",
             "--git", loaderGitUrl, "--rev", loaderGitRev, "--root", pfx,
             "sel4-kernel-loader-add-payload"] ++ (if opts.force then ["--force"] else []),
    envRemove := ["RUSTUP_TOOLCHAIN", "CARGO"] }

/-- Loader target triple by platform (install.rs lines 364-368). -/
def loaderTarget (platform : String) : Option String :=
  if platform = "spike" then some "riscv64imac-unknown-none-elf"
  else if platform = "qemu-arm-virt" then some "aarch64-unknown-none"
  else none

/-- Second loader command: `rustup run nightly-2024-08-01 cargo install -Z
build-std=... --target <triple> ... sel4-kernel-loader`, with toolchain
variables removed and SEL4_PREFIX/CC overrides added. -/
def loaderInstallCmd (opts : KernelOptions) (pfx target : String) : Cmd :=
  { prog := "rustup",
    args := ["run", "nightly-2024-08-01", "cargo", "install",
             "-Z", "build-std=core,compiler_builtins",
             "-Z", "build-std-features=compiler-builtins-mem",
             "--target", target, "--git", loaderGitUrl, "--rev", loaderGitRev,
             "--root", pfx, "sel4-kernel-loader"] ++ (if opts.force then ["--force"] else []),
    envRemove := ["RUSTUP_TOOLCHAIN", "CARGO"],
    envSet := [("SEL4_PREFIX", pfx), ("CC_aarch64_unknown_none", "aarch64-linux-gnu-gcc")] }

/-- install_kernel_loader (install.rs lines 342-396): run the two
`cargo install` commands with `.status().expect(...)` — only a spawn io
error panics; the exit status of each command is dropped unexamined.  The
loader target match sits between the two invocations. -/
def install_kernel_loader (w : World) (opts : KernelOptions) (pfx : String)
    (st : St) : Res Unit :=
  andThen (expectRun w (addPayloadCmd opts pfx)
      "failed install sel4-kernel-loader-add-payload" st) fun _ st =>
  match loaderTarget opts.platform with
  | none => (Except.error (Err.anyhowMsg "Unsupported platform"), st)
  | some target =>
    expectRun w (loaderInstallCmd opts pfx target) "failed install sel4-kernel-loader" st

/-- install (install.rs lines 18-26): install the kernel, then the loader,
both against `opts.sel4_prefix`. -/
def install (w : World) (opts : KernelOptions) (st : St) : Res Unit :=
  andThen (install_kernel w opts opts.sel4Pfx st) fun _ st =>
  install_kernel_loader w opts opts.sel4Pfx st

/-- Initial run state: no spawns yet, empty trace. -/
def st0 : St := { count := 0, trace := [] }

/-- Oracle in which every external process succeeds, every path exists,
canonicalization is the identity, and all filesystem operations succeed. -/
def wHappy : World :=
  { spawnStatus := fun _ _ => SpawnResult.exited 0,
    pathExists := fun _ => true,
    canonicalize := fun p => some p,
    createDirOk := fun _ => true,
    copyOk := fun _ _ => true }

/-- Oracle in which every spawned process exits 1, no path exists and every
filesystem operation fails. -/
def wAllFail : World :=
  { spawnStatus := fun _ _ => SpawnResult.exited 1,
    pathExists := fun _ => false,
    canonicalize := fun _ => none,
    createDirOk := fun _ => false,
    copyOk := fun _ _ => false }

/-- Oracle in which the first spawn (index 0) exits 1 and the second
(index 1) exits 0: a clone that succeeds on its second invocation. -/
def wSecondOk : World :=
  { spawnStatus := fun n _ => if n = 1 then SpawnResult.exited 0 else SpawnResult.exited 1,
    pathExists := fun _ => false,
    canonicalize := fun _ => none,
    createDirOk := fun _ => false,
    copyOk := fun _ _ => false }

/-- Oracle in which every spawned process starts but exits 101. -/
def wLoaderFails : World :=
  { spawnStatus := fun _ _ => SpawnResult.exited 101,
    pathExists := fun _ => true,
    canonicalize := fun p => some p,
    createDirOk := fun _ => true,
    copyOk := fun _ _ => true }

/-- Happy oracle except that the file copy fails (artifact absent). -/
def wNoArtifact : World := { wHappy with copyOk := fun _ _ => false }

/-- Happy oracle except that canonicalization fails (directory absent). -/
def wNoCanon : World := { wHappy with canonicalize := fun _ => none }

/-- All-default options (platform qemu-arm-virt, lib mode, remote source). -/
def defaultOpts : KernelOptions := {}

/-- Options with an unsupported platform and `--force` (fresh remote fetch). -/
def unsupportedOpts : KernelOptions := { platform := "foo", force := true }

/-- Options with a pinned seL4 baseline revision. -/
def baselineOpts : KernelOptions := { sel4Baseline := some "abc123" }

/-- Default options with `--force` (fresh remote fetch). -/
def freshOpts : KernelOptions := { force := true }

/-- Options of the spike binary-mode scenario. -/
def spikeBinOpts : KernelOptions := { platform := "spike", bin := true }

/-- Options with a local reL4 source path, platform spike, lib mode. -/
def localOpts (p : String) : KernelOptions := { platform := "spike", localPath := some p }

/-- The arguments by which the project-specific kernel-settings files are
referenced in the seL4_c_impl CMake invocations. -/
def settingsFileArgs : List String :=
  ["-C", "./kernel-settings-riscv64.cmake", "./kernel-settings-aarch64.cmake"]

/-- An event is a spawn of the version-control tool or a directory removal:
the effects a reused staging directory or a local source must never see. -/
def isGitSpawnOrRemove (e : Event) : Bool :=
  match e with
  | Event.spawn c _ => c.prog == "git"
  | Event.removeDirAll _ => true
  | _ => false

/-- Claim C1, as stated, is false: in an oracle where every clone invocation
exits non-zero, the retry loop invokes the clone command a 4th time after
the 3rd failed attempt, and then returns success instead of failing with a
source-unavailable error. -/
theorem clone_retry_claim_false :
    (cloneLoop wAllFail (rel4CloneCmd "master") 3 st0).1 = Except.ok () ∧
    (cloneLoop wAllFail (rel4CloneCmd "master") 3 st0).2.count = 4 :=
  ⟨rfl, rfl⟩

/-- Claim C1 (amended): the clone command is re-invoked on non-zero exit up
to 4 invocations in total (one initial attempt plus 3 retries); when every
invocation exits non-zero the loop performs exactly 4 invocations and then
returns success — no source-unavailable error is raised and acquisition
continues; a success on the 2nd invocation stops the loop after exactly 2
invocations. -/
theorem clone_retry_behaviour (w₁ w₂ : World) (c : Cmd) (st : St)
    (h1 : ∀ n, w₁.spawnStatus n c = SpawnResult.exited 1)
    (h2 : w₂.spawnStatus st.count c = SpawnResult.exited 1)
    (h3 : w₂.spawnStatus (st.count + 1) c = SpawnResult.exited 0) :
    cloneLoop w₁ c 3 st =
      (Except.ok (),
       { count := st.count + 4,
         trace := st.trace ++
           [Event.spawn c (SpawnResult.exited 1), Event.spawn c (SpawnResult.exited 1),
            Event.spawn c (SpawnResult.exited 1), Event.spawn c (SpawnResult.exited 1)] }) ∧
    cloneLoop w₂ c 3 st =
      (Except.ok (),
       { count := st.count + 2,
         trace := st.trace ++
           [Event.spawn c (SpawnResult.exited 1), Event.spawn c (SpawnResult.exited 0)] }) := by
  constructor
  · simp [cloneLoop, spawnE, h1]
  · simp [cloneLoop, spawnE, h2, h3]

/-- Witness for the amended claim C1 at concrete inputs: with every clone
failing the loop spawns 4 times; with a success on the 2nd invocation it
spawns exactly twice. -/
theorem clone_retry_behaviour_witness :
    (cloneLoop wAllFail (rel4CloneCmd "master") 3 st0).2.count = 4 ∧
    (cloneLoop wSecondOk (rel4CloneCmd "master") 3 st0).2.count = 2 := by
  have h := clone_retry_behaviour wAllFail wSecondOk (rel4CloneCmd "master") st0
    (fun _ => rfl) rfl rfl
  exact ⟨by rw [h.1]; rfl, by rw [h.2]; rfl⟩

/-- Claim C2: contrary to the claim, the two loader-install invocations do
not fail on a non-zero exit: with both `cargo install` commands exiting 101,
install_kernel_loader records the two failed spawns in its trace and still
returns success. -/
theorem loader_nonzero_exit_ignored :
    install_kernel_loader wLoaderFails defaultOpts "/workspace/.seL4" st0 =
      (Except.ok (),
       { count := 2,
         trace := [Event.spawn (addPayloadCmd defaultOpts "/workspace/.seL4")
                     (SpawnResult.exited 101),
                   Event.spawn (loaderInstallCmd defaultOpts "/workspace/.seL4"
                       "aarch64-unknown-none")
                     (SpawnResult.exited 101)] }) := by
  rfl

/-- Claim C9: with a local source path, acquisition of the reL4 sources
returns the given path unchanged and acquisition of the C-kernel sources
returns the sibling path, both leaving the run state untouched: no process
is spawned (in particular no network fetch) and no directory is removed. -/
theorem local_source_untouched (w : World) (opts : KernelOptions) (p : String) (st : St)
    (h : opts.localPath = some p) :
    acquireRel4Source w opts st = (Except.ok p, st) ∧
    acquireSel4CImpl w opts st = (Except.ok (p ++ "/../kernel"), st) := by
  constructor
  · simp [acquireRel4Source, h]
  · simp [acquireSel4CImpl, h]

/-- Witness for claim C9 at a concrete local path. -/
theorem local_source_untouched_witness :
    acquireRel4Source wHappy { localPath := some "/src/rel4" } st0 =
      (Except.ok "/src/rel4", st0) := by
  have h := local_source_untouched wHappy { localPath := some "/src/rel4" } "/src/rel4" st0 rfl
  exact h.1

/-- Claim C3, as stated, is false: with platform "foo" (unsupported), a
remote source, and a fresh fetch, the run does fail with the
unsupported-platform error, but only after the clone command and the
dependency-pin fixup have already been spawned. -/
theorem unsupported_platform_deferred_claim_false :
    (install_rel4_kernel wHappy unsupportedOpts "/workspace/.seL4" st0).1 =
      Except.error (Err.anyhowMsg "Unsupported platform: foo") ∧
    Event.spawn (rel4CloneCmd "master") (SpawnResult.exited 0) ∈
      (install_rel4_kernel wHappy unsupportedOpts "/workspace/.seL4" st0).2.trace ∧
    Event.spawn cargoUpdateCmd (SpawnResult.exited 0) ∈
      (install_rel4_kernel wHappy unsupportedOpts "/workspace/.seL4" st0).2.trace := by
  exact ⟨rfl, by decide, by decide⟩

/-- Claim C3 (amended): an unsupported platform is rejected with an
`Unsupported platform` error raised only when the build command is
composed, which happens after source acquisition: with a remote source and
a forced (or fresh) fetch, the staging directory is removed and the clone
and dependency-pin commands are spawned before the unsupported-platform
failure surfaces. -/
theorem unsupported_platform_fails_after_acquisition (w : World) (opts : KernelOptions)
    (pfx : String) (st : St)
    (hp1 : opts.platform ≠ "spike") (hp2 : opts.platform ≠ "qemu-arm-virt")
    (hl : opts.localPath = none) (hf : opts.force = true)
    (hsp : ∀ n c, w.spawnStatus n c = SpawnResult.exited 0) :
    install_rel4_kernel w opts pfx st =
      (Except.error (Err.anyhowMsg ("Unsupported platform: " ++ opts.platform)),
       { count := st.count + 2,
         trace := st.trace ++
           [Event.removeDirAll rel4KernelPath,
            Event.spawn (rel4CloneCmd opts.branch) (SpawnResult.exited 0),
            Event.spawn cargoUpdateCmd (SpawnResult.exited 0)] }) := by
  simp [install_rel4_kernel, acquireRel4Source, hl, hf, removeDirAllE, recordEvent,
        cloneLoop, spawnE, hsp, runChecked, andThen, rel4PlatformArgs, hp1, hp2]

/-- Witness for the amended claim C3 at concrete inputs. -/
theorem unsupported_platform_fails_after_acquisition_witness :
    (install_rel4_kernel wHappy unsupportedOpts "/workspace/.seL4" st0).2.count = 2 := by
  have h := unsupported_platform_fails_after_acquisition wHappy unsupportedOpts
    "/workspace/.seL4" st0 (by decide) (by decide) rfl rfl (fun _ _ => rfl)
  rw [h]
  rfl

/-- Claim C5, as stated, is false: the seL4_c_impl clone command is issued
by a fresh-fetch run, and its argument list carries neither `--depth` nor a
branch selection — it is a full clone of the default branch. -/
theorem shallow_clone_claim_false :
    Event.spawn cImplCloneCmd (SpawnResult.exited 0) ∈
      (install_rel4_kernel wHappy freshOpts "/workspace/.seL4" st0).2.trace ∧
    "--depth" ∉ cImplCloneCmd.args ∧ "--branch" ∉ cImplCloneCmd.args := by
  decide

/-- Claim C5 (amended): only the reL4-integral clone is shallow and pinned:
its arguments carry `--depth 1` and `--branch <branch>` against the staging
path.  The seL4_c_impl clone and the pinned-baseline seL4 clone target
their staging path with neither `--depth` nor `--branch`; the baseline
revision is selected by a separate `git checkout` run in the staging
directory. -/
theorem clone_command_shapes :
    (∀ br, (rel4CloneCmd br).args =
      ["clone", "https://github.com/reL4team2/rel4-integral.git", rel4KernelPath,
       "--config", "advice.detachedHead=false", "--depth", "1", "--branch", br]) ∧
    Event.spawn (rel4CloneCmd "master") (SpawnResult.exited 0) ∈
      (install_rel4_kernel wHappy freshOpts "/workspace/.seL4" st0).2.trace ∧
    cImplCloneCmd.args =
      ["clone", "https://github.com/reL4team2/seL4_c_impl.git", sel4KernelPath,
       "--config", "advice.detachedHead=false"] ∧
    sel4CloneCmd.args = ["clone", "https://github.com/seL4/seL4.git", sel4KernelPath] ∧
    "--depth" ∉ cImplCloneCmd.args ∧ "--branch" ∉ cImplCloneCmd.args ∧
    "--depth" ∉ sel4CloneCmd.args ∧ "--branch" ∉ sel4CloneCmd.args ∧
    (∀ commit, (checkoutCmd commit).args = ["checkout", commit] ∧
      (checkoutCmd commit).cwd = some sel4KernelPath) := by
  exact ⟨fun _ => rfl, by decide, rfl, rfl, by decide, by decide, by decide, by decide,
    fun _ => ⟨rfl, rfl⟩⟩

/-- Claim C7: platform spike, binary mode, staging directories populated,
no force: the run succeeds; no git command is spawned and no directory is
removed (the Acquirer performs no clone); the composed build command
appends `--bin` and runs in the staging directory; the RISC-V target triple
selects the built kernel ELF, which is copied to `<sel4Pfx>/bin/kernel.elf`. -/
theorem spike_binary_scenario :
    (install_rel4_kernel wHappy spikeBinOpts "/workspace/.seL4" st0).1 = Except.ok () ∧
    ((install_rel4_kernel wHappy spikeBinOpts "/workspace/.seL4" st0).2.trace.all
      (fun e => !(isGitSpawnOrRemove e))) = true ∧
    Event.spawn
        { prog := "rustup",
          args := ["run", "nightly-2024-02-01", "cargo", "xtask", "build", "--rust-only",
                   "--platform", "spike", "--bin"],
          cwd := some rel4KernelPath }
        (SpawnResult.exited 0) ∈
      (install_rel4_kernel wHappy spikeBinOpts "/workspace/.seL4" st0).2.trace ∧
    "--bin" ∈ rel4BuildArgs spikeBinOpts ["--platform", "spike"] ∧
    rel4BinTarget "spike" = some "riscv64imac-unknown-none-elf" ∧
    Event.copyFile (rel4KernelArtifact rel4KernelPath "riscv64imac-unknown-none-elf")
        "/workspace/.seL4/bin/kernel.elf" ∈
      (install_rel4_kernel wHappy spikeBinOpts "/workspace/.seL4" st0).2.trace := by
  exact ⟨rfl, by decide, by decide, by decide, by decide, by decide⟩

/-- Claim C4, as stated, is false for the pinned-baseline acquisition: with
every staging directory already present (`wHappy.pathExists` is constantly
true) and `force` off, the baseline install still removes the staging
directory and spawns the upstream clone command. -/
theorem baseline_refetch_claim_false :
    baselineOpts.force = false ∧
    wHappy.pathExists sel4KernelPath = true ∧
    Event.removeDirAll sel4KernelPath ∈
      (install_kernel wHappy baselineOpts "/workspace/.seL4" st0).2.trace ∧
    Event.spawn sel4CloneCmd (SpawnResult.exited 0) ∈
      (install_kernel wHappy baselineOpts "/workspace/.seL4" st0).2.trace := by
  exact ⟨rfl, rfl, by decide, by decide⟩

/-- Claim C4 (amended): for the two reL4-flow remote acquisitions
(reL4-integral and seL4_c_impl), an existing staging directory with `force`
off is reused with zero effects — no spawn, no removal, no event at all;
but the pinned-baseline seL4 acquisition always removes the staging
directory and re-clones, regardless of the directory's existence: its trace
unconditionally begins with the removal followed by the upstream clone. -/
theorem acquisition_idempotent_except_baseline (w : World) (opts : KernelOptions)
    (pfx commit d : String) (st : St)
    (hl : opts.localPath = none) (hf : opts.force = false)
    (he1 : w.pathExists rel4KernelPath = true)
    (he2 : w.pathExists sel4KernelPath = true)
    (hsp : ∀ n c, w.spawnStatus n c = SpawnResult.exited 0)
    (hc : w.canonicalize sel4KernelPath = some d)
    (hplat : opts.platform = "qemu-arm-virt") :
    acquireRel4Source w opts st = (Except.ok rel4KernelPath, st) ∧
    acquireSel4CImpl w opts st = (Except.ok sel4KernelPath, st) ∧
    install_sel4_kernel w opts pfx commit st =
      (Except.ok (),
       { count := st.count + 5,
         trace := st.trace ++
           [Event.removeDirAll sel4KernelPath,
            Event.spawn sel4CloneCmd (SpawnResult.exited 0),
            Event.spawn (checkoutCmd commit) (SpawnResult.exited 0),
            Event.canonicalizeCall sel4KernelPath,
            Event.spawn
              { prog := "cmake",
                args := ["-DCROSS_COMPILER_PREFIX=aarch64-linux-gnu-",
                         "-DKernelAllowSMCCalls=ON",
                         "-DCMAKE_INSTALL_PREFIX=" ++ pfx,
                         "-DKernelArmExportPCNTUser=ON", "-DKernelArmExportPTMRUser=ON",
                         "-DARM_CPU=cortex-a57", "-DKernelArch=arm",
                         "-DKernelArmHypervisorSupport=OFF",
                         "-DKernelPlatform=qemu-arm-virt", "-DKernelSel4Arch=aarch64",
                         "-DKernelVerificationBuild=OFF",
                         "-G", "Ninja", "-S", ".", "-B", d ++ "/build"],
                cwd := some d }
              (SpawnResult.exited 0),
            Event.spawn { prog := "ninja", args := ["-C", "build", "all"], cwd := some d }
              (SpawnResult.exited 0),
            Event.spawn { prog := "ninja", args := ["-C", "build", "install"], cwd := some d }
              (SpawnResult.exited 0)] }) := by
  refine ⟨?_, ?_, ?_⟩
  · simp [acquireRel4Source, hl, hf, he1]
  · simp [acquireSel4CImpl, hl, hf, he2]
  · simp [install_sel4_kernel, removeDirAllE, recordEvent, cloneLoop, spawnE, hsp,
          runChecked, andThen, canonicalizeE, hc, sel4CmakeArgs, hplat]

/-- Witness for the amended claim C4 at concrete inputs. -/
theorem acquisition_idempotent_except_baseline_witness :
    acquireRel4Source wHappy baselineOpts st0 = (Except.ok rel4KernelPath, st0) ∧
    (install_sel4_kernel wHappy baselineOpts "/workspace/.seL4" "abc123" st0).2.count = 5 := by
  have h := acquisition_idempotent_except_baseline wHappy baselineOpts "/workspace/.seL4"
    "abc123" "/tmp/seL4_kernel" st0 rfl rfl rfl rfl (fun _ _ => rfl) rfl rfl
  exact ⟨h.1, by rw [h.2.2]; rfl⟩

/-- Claim C6: a pinned baseline revision routes install_kernel to the
upstream seL4 path, and its absence routes to the reL4 path — the two paths
are mutually exclusive and selected once, at the initial dispatch.  For
both supported platforms, the upstream CMake argument list carries the
upstream-specific flags (`-DKernelPlatform=...`) and never references a
project-specific kernel-settings file (no `-C <settings>` argument; the
only non-literal arguments are the user-chosen install root and the
staging-derived build directory, which the hypotheses keep apart from the
settings-file strings); the project path's argument lists, by contrast, do
load a kernel-settings file with `-C`. -/
theorem baseline_routes_upstream (w : World) (opts opts₂ : KernelOptions)
    (pfx commit d : String) (st : St)
    (hb : opts.sel4Baseline = some commit) (hn : opts₂.sel4Baseline = none)
    (hpfx : ("-DCMAKE_INSTALL_PREFIX=" ++ pfx) ∉ settingsFileArgs)
    (hd : (d ++ "/build") ∉ settingsFileArgs) :
    install_kernel w opts pfx st = install_sel4_kernel w opts pfx commit st ∧
    install_kernel w opts₂ pfx st = install_rel4_kernel w opts₂ pfx st ∧
    (∀ a ∈ (sel4CmakeArgs "spike" pfx (d ++ "/build")).getD [], a ∉ settingsFileArgs) ∧
    (∀ a ∈ (sel4CmakeArgs "qemu-arm-virt" pfx (d ++ "/build")).getD [], a ∉ settingsFileArgs) ∧
    "-DKernelPlatform=spike" ∈ (sel4CmakeArgs "spike" pfx (d ++ "/build")).getD [] ∧
    "-DKernelPlatform=qemu-arm-virt" ∈
      (sel4CmakeArgs "qemu-arm-virt" pfx (d ++ "/build")).getD [] ∧
    "-C" ∈ (rel4CmakeArgs "spike" pfx false (d ++ "/build")).getD [] ∧
    "./kernel-settings-aarch64.cmake" ∈
      (rel4CmakeArgs "qemu-arm-virt" pfx false (d ++ "/build")).getD [] := by
  refine ⟨by simp [install_kernel, hb], by simp [install_kernel, hn], ?_, ?_,
    by simp [sel4CmakeArgs], by simp [sel4CmakeArgs],
    by simp [rel4CmakeArgs], by simp [rel4CmakeArgs]⟩
  · have hp := hpfx
    have hq := hd
    simp [settingsFileArgs] at hp hq
    simp [sel4CmakeArgs, settingsFileArgs, List.forall_mem_cons, hp, hq]
  · have hp := hpfx
    have hq := hd
    simp [settingsFileArgs] at hp hq
    simp [sel4CmakeArgs, settingsFileArgs, List.forall_mem_cons, hp, hq]

/-- Witness for claim C6 at concrete inputs: the baseline options route to
the upstream path. -/
theorem baseline_routes_upstream_witness :
    install_kernel wHappy baselineOpts "/workspace/.seL4" st0 =
      install_sel4_kernel wHappy baselineOpts "/workspace/.seL4" "abc123" st0 := by
  have h := baseline_routes_upstream wHappy baselineOpts defaultOpts "/workspace/.seL4"
    "abc123" "/tmp/seL4_kernel" st0 rfl rfl (by decide) (by decide)
  exact h.1

/-- Claim C8: in binary mode, when the build command succeeds but the
expected kernel image is absent (the copy fails), the run fails with an
io-style copy error naming the missing artifact path — an error value
distinct from every `anyhow` message error, in particular from the
`Failed to build reL4 kernel` build failure, which is what a non-zero build
exit produces instead. -/
theorem artifact_missing_distinct_from_build_failure (w w₂ : World) (lp pfx pd : String)
    (st : St)
    (hsp : ∀ n c, w.spawnStatus n c = SpawnResult.exited 0)
    (hpp : parentPath (pfx ++ "/" ++ "bin/kernel.elf") = some pd)
    (hdir : w.createDirOk pd = true)
    (hcopy : ∀ s t, w.copyOk s t = false)
    (hsp₂ : ∀ n c, w₂.spawnStatus n c = SpawnResult.exited 1) :
    (install_rel4_kernel w { platform := "spike", bin := true, localPath := some lp }
        pfx st).1 =
      Except.error (Err.ioError "copy" (rel4KernelArtifact lp "riscv64imac-unknown-none-elf")) ∧
    (install_rel4_kernel w₂ { platform := "spike", bin := true, localPath := some lp }
        pfx st).1 =
      Except.error (Err.anyhowMsg "Failed to build reL4 kernel") ∧
    (∀ p m, Err.ioError "copy" p ≠ Err.anyhowMsg m) := by
  refine ⟨?_, ?_, fun p m => by simp⟩
  · simp [install_rel4_kernel, acquireRel4Source, rel4PlatformArgs, runChecked, spawnE,
          hsp, andThen, installBinArtifact, rel4BinTarget, hpp, createDirAllE, hdir,
          recordEvent, copyE, hcopy]
  · simp [install_rel4_kernel, acquireRel4Source, rel4PlatformArgs, runChecked, spawnE,
          hsp₂, andThen]

/-- Witness for claim C8 at concrete inputs: artifact absent after a
successful build. -/
theorem artifact_missing_distinct_witness :
    (install_rel4_kernel wNoArtifact
        { platform := "spike", bin := true, localPath := some "/src/rel4" }
        "/workspace/.seL4" st0).1 =
      Except.error
        (Err.ioError "copy" (rel4KernelArtifact "/src/rel4" "riscv64imac-unknown-none-elf")) := by
  have h := artifact_missing_distinct_from_build_failure wNoArtifact wAllFail "/src/rel4"
    "/workspace/.seL4" "/workspace/.seL4/bin" st0 (fun _ _ => rfl) (by decide) rfl
    (fun _ _ => rfl) (fun _ _ => rfl)
  exact h.1

/-- Claim C10: with a local source path `p`, the C-kernel
configure/build/install stages run with the canonicalization of the sibling
directory `p ++ "/../kernel"` as their working directory, and when that
sibling cannot be canonicalized (it does not exist) the whole install fails
with the canonicalize io error. -/
theorem local_sibling_kernel_dir (w₁ w₂ : World) (p pfx q : String)
    (h1sp : ∀ n c, w₁.spawnStatus n c = SpawnResult.exited 0)
    (h1c : w₁.canonicalize (p ++ "/../kernel") = none)
    (h2sp : ∀ n c, w₂.spawnStatus n c = SpawnResult.exited 0)
    (h2c : w₂.canonicalize (p ++ "/../kernel") = some q) :
    install_rel4_kernel w₁ (localOpts p) pfx st0 =
      (Except.error (Err.ioError "canonicalize" (p ++ "/../kernel")),
       { count := 1,
         trace := [Event.spawn
                     { prog := "rustup",
                       args := ["run", "nightly-2024-02-01", "cargo", "xtask", "build",
                                "--rust-only", "--platform", "spike"],
                       cwd := some p }
                     (SpawnResult.exited 0),
                   Event.canonicalizeCall (p ++ "/../kernel")] }) ∧
    install_rel4_kernel w₂ (localOpts p) pfx st0 =
      (Except.ok (),
       { count := 4,
         trace := [Event.spawn
                     { prog := "rustup",
                       args := ["run", "nightly-2024-02-01", "cargo", "xtask", "build",
                                "--rust-only", "--platform", "spike"],
                       cwd := some p }
                     (SpawnResult.exited 0),
                   Event.canonicalizeCall (p ++ "/../kernel"),
                   Event.spawn
                     { prog := "cmake",
                       args := ["-DCROSS_COMPILER_PREFIX=riscv64-unknown-linux-gnu-",
                                "-DCMAKE_INSTALL_PREFIX=" ++ pfx, "-DREL4_KERNEL=FALSE",
                                "-C", "./kernel-settings-riscv64.cmake",
                                "-G", "Ninja", "-S", ".", "-B", q ++ "/build"],
                       cwd := some q }
                     (SpawnResult.exited 0),
                   Event.spawn { prog := "ninja", args := ["-C", "build", "all"], cwd := some q }
                     (SpawnResult.exited 0),
                   Event.spawn
                     { prog := "ninja", args := ["-C", "build", "install"], cwd := some q }
                     (SpawnResult.exited 0)] }) := by
  constructor
  · simp [install_rel4_kernel, acquireRel4Source, localOpts, rel4PlatformArgs,
          rel4BuildArgs, runChecked, spawnE, h1sp, andThen, installBinArtifact,
          acquireSel4CImpl, canonicalizeE, h1c, recordEvent, st0]
  · simp [install_rel4_kernel, acquireRel4Source, localOpts, rel4PlatformArgs,
          rel4BuildArgs, runChecked, spawnE, h2sp, andThen, installBinArtifact,
          acquireSel4CImpl, canonicalizeE, h2c, recordEvent, st0, rel4CmakeArgs]

/-- Witness for claim C10 at concrete inputs: a missing sibling directory
fails the install; an existing one hosts the C-kernel build stages. -/
theorem local_sibling_kernel_dir_witness :
    (install_rel4_kernel wNoCanon (localOpts "/src/rel4") "/workspace/.seL4" st0).1 =
      Except.error (Err.ioError "canonicalize" ("/src/rel4" ++ "/../kernel")) ∧
    (install_rel4_kernel wHappy (localOpts "/src/rel4") "/workspace/.seL4" st0).1 =
      Except.ok () := by
  have h := local_sibling_kernel_dir wNoCanon wHappy "/src/rel4" "/workspace/.seL4"
    ("/src/rel4" ++ "/../kernel") (fun _ _ => rfl) rfl (fun _ _ => rfl) rfl
  exact ⟨by rw [h.1], by rw [h.2]⟩

end ReL4Cli

